import Mathlib

/-!
# chrome-reset-server: the reset orchestration sequence

A shallow embedding of `shell-n-slides/chrome-reset-server/main.go`.

The program talks to the host through four calls: `user.Current`,
`exec.Command(..).CombinedOutput`, `os.RemoveAll` and `exec.Command(..).Start`.
They are the fields of `HostOS`, a host with an explicit state that every call
threads through.  Each Go function becomes a function producing a `Run`: its
return value, the host calls it made together with what they returned, the
lines it logged, and the host state it leaves behind.

Go `error` values are carried by their message (`err.Error()`), `nil` being
`none`.  Go strings are modelled by `String`.
-/

namespace ChromeReset

/-! ## Host interface -/

/-- One call made to the host, with what the host answered. -/
inductive Event where
  /-- The call `exec.Command(name, args...).CombinedOutput()`. -/
  | combinedOutput (name : String) (args : List String) (output : String) (err : Option String)
  /-- The call `os.RemoveAll(path)`. -/
  | removeAll (path : String) (err : Option String)
  /-- The call `exec.Command(name, args...).Start()`. -/
  | start (name : String) (args : List String) (err : Option String)
  deriving DecidableEq, Repr

/-- The call of an event, without the answer. -/
inductive Call where
  | combinedOutput (name : String) (args : List String)
  | removeAll (path : String)
  | start (name : String) (args : List String)
  deriving DecidableEq, Repr

/-- Forget the answer of an event. -/
def Event.call : Event → Call
  | .combinedOutput name args _ _ => .combinedOutput name args
  | .removeAll path _ => .removeAll path
  | .start name args _ => .start name args

/-- The host the program runs on, with state `σ`. -/
structure HostOS (σ : Type) where
  /-- The lookup `user.Current()`: the `Username` of the user, or an error. -/
  userCurrent : σ → Except String String
  /-- Run a command to completion: combined output and exit error. -/
  combinedOutput : String → List String → σ → (String × Option String) × σ
  /-- Recursive deletion `os.RemoveAll`. -/
  removeAll : String → σ → Option String × σ
  /-- Start a command without waiting for it. -/
  start : String → List String → σ → Option String × σ

/-- The outcome of running a piece of the program on a host. -/
structure Run (σ α : Type) where
  value : α
  events : List Event
  logs : List String
  state : σ

/-- An HTTP response: status code and body. -/
structure Response where
  status : Nat
  body : String
  deriving DecidableEq, Repr

/-- Startup flags `--url` and `--no-security`, captured by the handler. -/
structure Config where
  url : String
  noSecurity : Bool
  deriving DecidableEq, Repr

/-- A request, reduced to the decoded key/value pairs of its query string. -/
structure Request where
  query : List (String × String)
  deriving DecidableEq, Repr

/-! ## Library functions used by the program -/

/-- Whether `p` begins `l`. -/
def startsWithChars : List Char → List Char → Bool
  | [], _ => true
  | _ :: _, [] => false
  | a :: p, b :: l => a == b && startsWithChars p l

/-- Whether `sub` occurs in `l` as a contiguous block. -/
def containsChars : List Char → List Char → Bool
  | [], sub => startsWithChars sub []
  | c :: cs, sub => startsWithChars sub (c :: cs) || containsChars cs sub

/-- Go `strings.Contains(s, substr)`.  Go compares bytes; on well-formed UTF-8 text a
block of bytes that encodes `substr` is a block of its characters, which is what is
compared here. -/
def stringsContains (s substr : String) : Bool :=
  containsChars s.data substr.data

/-- Go `url.Values.Get`: the first value of `key`, or the empty string. -/
def queryGet (query : List (String × String)) (key : String) : String :=
  match query.find? (fun kv => kv.1 == key) with
  | some kv => kv.2
  | none => ""

/-- Go `http.StatusOK`. -/
def statusOK : Nat := 200

/-- Go `http.StatusInternalServerError`. -/
def statusInternalServerError : Nat := 500

/-- Go `http.Error(w, msg, code)`: the status with the message on a line. -/
def httpError (msg : String) (code : Nat) : Response :=
  { status := code, body := msg ++ "\n" }

/-- Go formatting of a `[]string` under `%v`. -/
def formatArgs (args : List String) : String :=
  "[" ++ " ".intercalate args ++ "]"

/-! ## `launchChromium` -/

/-- The flags put before the URL under `--no-security`. -/
def noSecurityFlags : List String :=
  ["--disable-web-security", "--user-data-dir=/tmp/chromium", "--test-type",
   "--hide-crash-restore-bubble", "--start-maximized"]

/-- The executable `launchChromium` starts. -/
def chromiumExecutable : String := "chromium"

/-- The `args` slice built by `launchChromium`. -/
def launchArgs (url : String) (noSecurity : Bool) : List String :=
  let args := [url]
  if noSecurity then noSecurityFlags ++ args else args

/-- Go `launchChromium(url, noSecurity)`. -/
def launchChromium {σ : Type} (os : HostOS σ) (url : String) (noSecurity : Bool) (s : σ) :
    Run σ (Option String) :=
  let args := launchArgs url noSecurity
  let r := os.start chromiumExecutable args s
  { value := r.1
    events := [Event.start chromiumExecutable args r.1]
    logs := [if noSecurity then "Launching Chromium with --disable-web-security"
             else "Launching Chromium without --disable-web-security",
             "Launching Chromium with args: " ++ formatArgs args]
    state := r.2 }

/-! ## `killChromium` -/

/-- The utility `killChromium` runs. -/
def killUtility : String := "pkill"

/-- The name pattern `killChromium` hands to the utility. -/
def killPattern : String := "chrome"

/-- The decision of `killChromium` on the outcome of the command. -/
def killChromiumResult (output : String) (err : Option String) : Option String :=
  match err with
  | some e =>
    if !stringsContains output "no process found" then
      some ("pkill error: " ++ e ++ ", output: " ++ output)
    else none
  | none => none

/-- Go `killChromium()`. -/
def killChromium {σ : Type} (os : HostOS σ) (s : σ) : Run σ (Option String) :=
  let r := os.combinedOutput killUtility ["-9", killPattern] s
  { value := killChromiumResult r.1.1 r.1.2
    events := [Event.combinedOutput killUtility ["-9", killPattern] r.1.1 r.1.2]
    logs := []
    state := r.2 }

/-! ## The `/reset` handler -/

/-- The `paths` slice of the handler. -/
def profilePaths (username : String) : List String :=
  ["/home/" ++ username ++ "/snap/chromium/common/chromium/Default/History",
   "/home/" ++ username ++ "/snap/chromium/common/chromium/Default/History-journal",
   "/home/" ++ username ++ "/snap/chromium/common/chromium/Default/Cache",
   "/home/" ++ username ++ "/snap/chromium/common/chromium/Default/Sessions",
   "/tmp/chromium"]

/-- The loop `for _, p := range paths` of the handler. -/
def purge {σ : Type} (os : HostOS σ) : List String → σ → Run σ Unit
  | [], s => { value := (), events := [], logs := [], state := s }
  | p :: ps, s =>
    let r := os.removeAll p s
    let rest := purge os ps r.2
    { value := ()
      events := Event.removeAll p r.1 :: rest.events
      logs := ("Attempting to remove: " ++ p) ::
        (match r.1 with
         | some e => "Failed to remove " ++ p ++ ": " ++ e
         | none => "Successfully removed: " ++ p) :: rest.logs
      state := rest.state }

/-- The `username` the handler uses, from the `user` parameter and the lookup. -/
def resolveUsername (userParam currentUser : String) : String :=
  if userParam != "" then userParam else currentUser

/-- The function registered for `/reset`. -/
def resetHandler {σ : Type} (os : HostOS σ) (cfg : Config) (r : Request) (s : σ) :
    Run σ Response :=
  let userParam := queryGet r.query "user"
  match os.userCurrent s with
  | .error e =>
    { value := httpError "Failed to get current user" statusInternalServerError
      events := []
      logs := ["/reset endpoint called", "Failed to get current user: " ++ e]
      state := s }
  | .ok currentUser =>
    let username := resolveUsername userParam currentUser
    let k := killChromium os s
    let d := purge os (profilePaths username) k.state
    let l := launchChromium os cfg.url cfg.noSecurity d.state
    let logs :=
      ["/reset endpoint called"] ++
      (if userParam != "" then ["Overriding username with user param: " ++ userParam] else []) ++
      ["Killing all running Chromium instances..."] ++ k.logs ++
      [match k.value with
       | some e => "Failed to kill Chromium: " ++ e
       | none => "Successfully killed Chromium processes (if any)"] ++
      d.logs ++ l.logs
    match l.value with
    | some e =>
      { value := httpError "Failed to start Chromium" statusInternalServerError
        events := k.events ++ d.events ++ l.events
        logs := logs ++ ["Failed to start Chromium: " ++ e]
        state := l.state }
    | none =>
      { value := { status := statusOK, body := "Chromium reset and launched." }
        events := k.events ++ d.events ++ l.events
        logs := logs ++ ["Chromium launched successfully."]
        state := l.state }

/-! ## Reading a run -/

/-- The paths handed to `os.RemoveAll`, in order. -/
def deletions : List Event → List String
  | [] => []
  | .removeAll p _ :: es => p :: deletions es
  | _ :: es => deletions es

/-- The browser start of step 3 was attempted and failed. -/
def launchFailed (es : List Event) : Prop :=
  ∃ name args e, Event.start name args (some e) ∈ es

/-- The host state in which step 3 of the handler starts, for user name `n`. -/
def stateBeforeLaunch {σ : Type} (os : HostOS σ) (n : String) (s : σ) : σ :=
  (purge os (profilePaths n) (killChromium os s).state).state

/-- A host without state whose calls always answer the same. -/
def fixedHost (user : Except String String) (killOut : String × Option String)
    (rm : String → Option String) (st : Option String) : HostOS Unit where
  userCurrent := fun _ => user
  combinedOutput := fun _ _ s => (killOut, s)
  removeAll := fun p s => (rm p, s)
  start := fun _ _ s => (st, s)

/-- A host whose state is the script of answers the coming deletions get. -/
def scriptedHost (user : Except String String) (killOut : String × Option String)
    (st : Option String) : HostOS (List (Option String)) where
  userCurrent := fun _ => user
  combinedOutput := fun _ _ s => (killOut, s)
  removeAll := fun _ s => (s.headD none, s.tail)
  start := fun _ _ s => (st, s)

/-! ## Lemmas on the library functions -/

theorem startsWithChars_iff (p l : List Char) :
    startsWithChars p l = true ↔ ∃ t, l = p ++ t := by
  induction p generalizing l with
  | nil => simp [startsWithChars]
  | cons a p ih =>
    cases l with
    | nil => simp [startsWithChars]
    | cons b l =>
      simp only [startsWithChars, Bool.and_eq_true, beq_iff_eq, ih, List.cons_append,
        List.cons.injEq]
      constructor
      · rintro ⟨rfl, t, rfl⟩
        exact ⟨t, rfl, rfl⟩
      · rintro ⟨t, rfl, rfl⟩
        exact ⟨rfl, t, rfl⟩

theorem containsChars_iff (l sub : List Char) :
    containsChars l sub = true ↔ ∃ a b, l = a ++ sub ++ b := by
  induction l with
  | nil =>
    simp only [containsChars, startsWithChars_iff]
    constructor
    · rintro ⟨t, ht⟩
      exact ⟨[], t, by simpa using ht⟩
    · rintro ⟨a, b, h⟩
      have h1 : a ++ sub ++ b = [] := h.symm
      simp only [List.append_eq_nil] at h1
      exact ⟨[], by simp [h1.1.2]⟩
  | cons c cs ih =>
    simp only [containsChars, Bool.or_eq_true, startsWithChars_iff, ih]
    constructor
    · rintro (⟨t, ht⟩ | ⟨a, b, h⟩)
      · exact ⟨[], t, by simpa using ht⟩
      · exact ⟨c :: a, b, by simp [h]⟩
    · rintro ⟨a, b, h⟩
      cases a with
      | nil => exact Or.inl ⟨b, by simpa using h⟩
      | cons x a =>
        simp only [List.cons_append, List.cons.injEq] at h
        exact Or.inr ⟨a, b, by simpa using h.2⟩

/-- The test `strings.Contains` holds exactly of the strings with `substr` inside. -/
theorem stringsContains_iff (s substr : String) :
    stringsContains s substr = true ↔ ∃ a b : String, s = a ++ substr ++ b := by
  unfold stringsContains
  rw [containsChars_iff]
  constructor
  · rintro ⟨a, b, h⟩
    refine ⟨⟨a⟩, ⟨b⟩, ?_⟩
    apply String.ext
    simpa using h
  · rintro ⟨a, b, h⟩
    exact ⟨a.data, b.data, by simp [h]⟩

theorem deletions_append (xs ys : List Event) :
    deletions (xs ++ ys) = deletions xs ++ deletions ys := by
  induction xs with
  | nil => rfl
  | cons e es ih => cases e <;> simp [deletions, ih]

theorem purge_deletions {σ : Type} (os : HostOS σ) (ps : List String) (s : σ) :
    deletions (purge os ps s).events = ps := by
  induction ps generalizing s with
  | nil => rfl
  | cons p ps ih => simp [purge, deletions, ih]

theorem purge_no_start {σ : Type} (os : HostOS σ) (ps : List String) (s : σ)
    (name : String) (args : List String) (err : Option String) :
    Event.start name args err ∉ (purge os ps s).events := by
  induction ps generalizing s with
  | nil => simp [purge]
  | cons p ps ih => simp [purge, ih]

/-! ## Lemmas on the handler -/

theorem resetHandler_events {σ : Type} (os : HostOS σ) (cfg : Config) (r : Request) (s : σ)
    (c : String) (h : os.userCurrent s = .ok c) :
    (resetHandler os cfg r s).events =
      (killChromium os s).events ++
      (purge os (profilePaths (resolveUsername (queryGet r.query "user") c))
        (killChromium os s).state).events ++
      (launchChromium os cfg.url cfg.noSecurity
        (stateBeforeLaunch os (resolveUsername (queryGet r.query "user") c) s)).events := by
  simp only [resetHandler, h, stateBeforeLaunch]
  split <;> rfl

theorem resetHandler_value {σ : Type} (os : HostOS σ) (cfg : Config) (r : Request) (s : σ)
    (c : String) (h : os.userCurrent s = .ok c) :
    (resetHandler os cfg r s).value =
      match (launchChromium os cfg.url cfg.noSecurity
        (stateBeforeLaunch os (resolveUsername (queryGet r.query "user") c) s)).value with
      | some _ => httpError "Failed to start Chromium" statusInternalServerError
      | none => { status := statusOK, body := "Chromium reset and launched." } := by
  simp only [resetHandler, h, stateBeforeLaunch]
  split <;> rename_i hl <;> simp only [hl]

theorem resetHandler_lookup_error {σ : Type} (os : HostOS σ) (cfg : Config) (r : Request)
    (s : σ) (e : String) (h : os.userCurrent s = .error e) :
    resetHandler os cfg r s =
      { value := httpError "Failed to get current user" statusInternalServerError
        events := []
        logs := ["/reset endpoint called", "Failed to get current user: " ++ e]
        state := s } := by
  simp only [resetHandler, h]

theorem resolveUsername_eq (o c : String) :
    resolveUsername o c = if o = "" then c else o := by
  unfold resolveUsername
  by_cases ho : o = "" <;> simp [ho]

theorem resetHandler_deletions {σ : Type} (os : HostOS σ) (cfg : Config) (r : Request) (s : σ)
    (c : String) (h : os.userCurrent s = .ok c) :
    deletions (resetHandler os cfg r s).events =
      profilePaths (resolveUsername (queryGet r.query "user") c) := by
  rw [resetHandler_events os cfg r s c h, deletions_append, deletions_append, purge_deletions]
  simp [killChromium, launchChromium, deletions]

/-! ## The launch arguments -/

theorem launchFailed_iff {σ : Type} (os : HostOS σ) (cfg : Config) (r : Request) (s : σ)
    (c : String) (h : os.userCurrent s = .ok c) :
    launchFailed (resetHandler os cfg r s).events ↔
      (launchChromium os cfg.url cfg.noSecurity
        (stateBeforeLaunch os (resolveUsername (queryGet r.query "user") c) s)).value ≠ none := by
  rw [resetHandler_events os cfg r s c h]
  unfold launchFailed
  constructor
  · rintro ⟨name, args, e, hmem⟩
    simp only [List.mem_append] at hmem
    rcases hmem with (hk | hd) | hl
    · simp [killChromium] at hk
    · exact absurd hd (purge_no_start os _ _ name args (some e))
    · simp only [launchChromium, List.mem_singleton, Event.start.injEq] at hl
      simp only [launchChromium, ← hl.2.2]
      simp
  · intro hne
    cases hv : (launchChromium os cfg.url cfg.noSecurity
        (stateBeforeLaunch os (resolveUsername (queryGet r.query "user") c) s)).value with
    | none => exact absurd hv hne
    | some e =>
      refine ⟨chromiumExecutable, launchArgs cfg.url cfg.noSecurity, e, ?_⟩
      simp only [List.mem_append]
      right
      simp only [launchChromium, List.mem_singleton, Event.start.injEq, true_and]
      simpa [launchChromium] using hv.symm

/-- C3, as stated, fails: on a host where the lookup of the current user fails and the
browser would start, the handler answers 500 although no browser start failed (none was
attempted). -/
theorem reset_500_without_launch_failure :
    ¬ ((resetHandler (fixedHost (.error "user: unknown userid 1000") ("", none)
          (fun _ => none) none)
          { url := "https://example.com", noSecurity := false } { query := [] } ()).value.status
          = 500 ↔
        launchFailed (resetHandler (fixedHost (.error "user: unknown userid 1000") ("", none)
          (fun _ => none) none)
          { url := "https://example.com", noSecurity := false } { query := [] } ()).events) := by
  intro hiff
  obtain ⟨name, args, e, hmem⟩ := hiff.mp rfl
  simp [resetHandler, fixedHost] at hmem

/-- C3, amended: for every host, whatever the lookup, the termination command, the
deletions and the browser start answer, the handler answers 500 exactly when the lookup
of the current user failed or the browser start of step 3 failed. -/
theorem reset_500_iff {σ : Type} (os : HostOS σ) (cfg : Config) (r : Request) (s : σ) :
    (resetHandler os cfg r s).value.status = 500 ↔
      ((∃ e, os.userCurrent s = .error e) ∨
        launchFailed (resetHandler os cfg r s).events) := by
  cases h : os.userCurrent s with
  | error e =>
    rw [resetHandler_lookup_error os cfg r s e h]
    simp [httpError, statusInternalServerError]
  | ok c =>
    rw [launchFailed_iff os cfg r s c h, resetHandler_value os cfg r s c h]
    cases (launchChromium os cfg.url cfg.noSecurity
        (stateBeforeLaunch os (resolveUsername (queryGet r.query "user") c) s)).value <;>
      simp [httpError, statusInternalServerError, statusOK]

/-- C4: when the lookup of the current user succeeds, whatever the termination command
and the five deletions answer, the handler reports 200 with body
`Chromium reset and launched.` exactly when `launchChromium` returns no error, and the
500 error response `Failed to start Chromium` exactly when it returns one; these are the
only two responses. -/
theorem reset_response_by_launch {σ : Type} (os : HostOS σ) (cfg : Config) (r : Request)
    (s : σ) (c : String) (h : os.userCurrent s = .ok c) :
    ((resetHandler os cfg r s).value = { status := 200, body := "Chromium reset and launched." } ↔
      (launchChromium os cfg.url cfg.noSecurity
        (stateBeforeLaunch os (resolveUsername (queryGet r.query "user") c) s)).value = none) ∧
    ((resetHandler os cfg r s).value = httpError "Failed to start Chromium" 500 ↔
      (launchChromium os cfg.url cfg.noSecurity
        (stateBeforeLaunch os (resolveUsername (queryGet r.query "user") c) s)).value ≠ none) ∧
    ((resetHandler os cfg r s).value = { status := 200, body := "Chromium reset and launched." } ∨
      (resetHandler os cfg r s).value = httpError "Failed to start Chromium" 500) ∧
    ((resetHandler os cfg r s).value.status = 500 ↔
      launchFailed (resetHandler os cfg r s).events) := by
  refine ⟨?_, ?_, ?_, ?_⟩
  · rw [resetHandler_value os cfg r s c h]
    cases (launchChromium os cfg.url cfg.noSecurity
        (stateBeforeLaunch os (resolveUsername (queryGet r.query "user") c) s)).value <;>
      simp [httpError, statusInternalServerError, statusOK]
  · rw [resetHandler_value os cfg r s c h]
    cases (launchChromium os cfg.url cfg.noSecurity
        (stateBeforeLaunch os (resolveUsername (queryGet r.query "user") c) s)).value <;>
      simp [httpError, statusInternalServerError, statusOK]
  · rw [resetHandler_value os cfg r s c h]
    cases (launchChromium os cfg.url cfg.noSecurity
        (stateBeforeLaunch os (resolveUsername (queryGet r.query "user") c) s)).value <;>
      simp [httpError, statusInternalServerError, statusOK]
  · rw [launchFailed_iff os cfg r s c h, resetHandler_value os cfg r s c h]
    cases (launchChromium os cfg.url cfg.noSecurity
        (stateBeforeLaunch os (resolveUsername (queryGet r.query "user") c) s)).value <;>
      simp [httpError, statusInternalServerError, statusOK]

/-- C4 on a host where the termination command fails, two deletions fail and the browser
starts: the handler reports success. -/
theorem reset_response_by_launch_witness :
    (scriptedHost (.ok "kiosk") ("", some "exit status 3") none).userCurrent
        [some "permission denied", none, some "directory not empty", none, none] = .ok "kiosk" ∧
    (resetHandler (scriptedHost (.ok "kiosk") ("", some "exit status 3") none)
        { url := "https://example.com", noSecurity := true } { query := [] }
        [some "permission denied", none, some "directory not empty", none, none]).value =
      { status := 200, body := "Chromium reset and launched." } :=
  ⟨rfl, ((reset_response_by_launch (scriptedHost (.ok "kiosk") ("", some "exit status 3") none)
      { url := "https://example.com", noSecurity := true } { query := [] }
      [some "permission denied", none, some "directory not empty", none, none]
      "kiosk" rfl).1).mpr rfl⟩

/-- C5: when the lookup of the current user fails, the handler makes no call that
terminates a process, deletes a path or starts the browser (its events are empty and the
host state is untouched) and answers with the 500 error response
`Failed to get current user`. -/
theorem reset_lookup_failure_aborts {σ : Type} (os : HostOS σ) (cfg : Config) (r : Request)
    (s : σ) (e : String) (h : os.userCurrent s = .error e) :
    (resetHandler os cfg r s).events = [] ∧
    (resetHandler os cfg r s).state = s ∧
    (resetHandler os cfg r s).value = httpError "Failed to get current user" 500 ∧
    (resetHandler os cfg r s).value.status = 500 := by
  rw [resetHandler_lookup_error os cfg r s e h]
  exact ⟨rfl, rfl, rfl, rfl⟩

/-- C5 on a host without a passwd entry for the process, the request carrying an
override. -/
theorem reset_lookup_failure_aborts_witness :
    (fixedHost (.error "user: unknown userid 1000") ("", none) (fun _ => none) none).userCurrent ()
      = .error "user: unknown userid 1000" ∧
    (resetHandler (fixedHost (.error "user: unknown userid 1000") ("", none) (fun _ => none) none)
        { url := "https://example.com", noSecurity := false }
        { query := [("user", "kiosk")] } ()).events = [] :=
  ⟨rfl, (reset_lookup_failure_aborts
      (fixedHost (.error "user: unknown userid 1000") ("", none) (fun _ => none) none)
      { url := "https://example.com", noSecurity := false }
      { query := [("user", "kiosk")] } () "user: unknown userid 1000" rfl).1⟩

/-! ## The override and the lookup -/

/-- C6, as stated, fails: with the override `alice` and every other answer of the host
equal, the run where the lookup succeeds and the run where it fails differ both in the
response and in the calls made. -/
theorem reset_lookup_consulted_despite_override :
    queryGet [("user", "alice")] "user" = "alice" ∧
    (resetHandler (fixedHost (.ok "kiosk") ("", none) (fun _ => none) none)
        { url := "https://example.com", noSecurity := false }
        { query := [("user", "alice")] } ()).value ≠
      (resetHandler (fixedHost (.error "user: unknown userid 1000") ("", none)
        (fun _ => none) none)
        { url := "https://example.com", noSecurity := false }
        { query := [("user", "alice")] } ()).value ∧
    (resetHandler (fixedHost (.ok "kiosk") ("", none) (fun _ => none) none)
        { url := "https://example.com", noSecurity := false }
        { query := [("user", "alice")] } ()).events ≠
      (resetHandler (fixedHost (.error "user: unknown userid 1000") ("", none)
        (fun _ => none) none)
        { url := "https://example.com", noSecurity := false }
        { query := [("user", "alice")] } ()).events := by
  decide

/-- C6, amended: with a non-empty override the identity is the override, and the run
(response, calls, log and final host state) is the same on two hosts that differ only in
the lookup of the current user, provided both lookups succeed, whatever names they give;
the lookup is consulted all the same, and where it fails the handler answers with the
500 error response and makes no call, override or not. -/
theorem reset_override_lookup {σ : Type} (os : HostOS σ) (lookup : σ → Except String String)
    (cfg : Config) (r : Request) (s : σ) (c₁ c₂ : String)
    (ho : queryGet r.query "user" ≠ "")
    (h₁ : os.userCurrent s = .ok c₁) (h₂ : lookup s = .ok c₂) :
    resetHandler { os with userCurrent := lookup } cfg r s = resetHandler os cfg r s ∧
    deletions (resetHandler os cfg r s).events = profilePaths (queryGet r.query "user") ∧
    (∀ (failing : σ → Except String String) (e : String), failing s = .error e →
      (resetHandler { os with userCurrent := failing } cfg r s).events = [] ∧
      (resetHandler { os with userCurrent := failing } cfg r s).value =
        httpError "Failed to get current user" 500) := by
  have hn : ∀ c, resolveUsername (queryGet r.query "user") c = queryGet r.query "user" := by
    intro c
    rw [resolveUsername_eq, if_neg ho]
  refine ⟨?_, ?_, ?_⟩
  · simp only [resetHandler, h₁, h₂, hn]
    rfl
  · rw [resetHandler_deletions os cfg r s c₁ h₁, hn]
  · intro failing e hf
    rw [resetHandler_lookup_error { os with userCurrent := failing } cfg r s e hf]
    exact ⟨rfl, rfl⟩

/-- C6, amended, on two hosts whose lookups give `kiosk` and `root`, for the override
`alice`. -/
theorem reset_override_lookup_witness :
    queryGet [("user", "alice")] "user" ≠ "" ∧
    resetHandler { fixedHost (.ok "kiosk") ("", none) (fun _ => none) none with
          userCurrent := fun _ => .ok "root" }
        { url := "https://example.com", noSecurity := false }
        { query := [("user", "alice")] } () =
      resetHandler (fixedHost (.ok "kiosk") ("", none) (fun _ => none) none)
        { url := "https://example.com", noSecurity := false }
        { query := [("user", "alice")] } () :=
  ⟨by decide,
   (reset_override_lookup (fixedHost (.ok "kiosk") ("", none) (fun _ => none) none)
      (fun _ => .ok "root") { url := "https://example.com", noSecurity := false }
      { query := [("user", "alice")] } () "kiosk" "root" (by decide) rfl rfl).1⟩

/-! ## Order of the steps -/

/-- The decision table of `killChromium`: whatever exit error `err` and combined output
`output` the command `pkill -9 chrome` gives, `killChromium` returns nil when `err` is
nil, returns nil when `output` contains `no process found`, and otherwise returns the
error `pkill error: <err>, output: <output>`; so it returns nil exactly in those two
cases. -/
theorem killChromium_outcome {σ : Type} (os : HostOS σ) (s : σ) (output : String)
    (err : Option String)
    (hans : (os.combinedOutput "pkill" ["-9", "chrome"] s).1 = (output, err)) :
    (killChromium os s).events = [Event.combinedOutput "pkill" ["-9", "chrome"] output err] ∧
    (err = none → (killChromium os s).value = none) ∧
    ((∃ a b : String, output = a ++ "no process found" ++ b) →
      (killChromium os s).value = none) ∧
    (∀ e, err = some e → (¬ ∃ a b : String, output = a ++ "no process found" ++ b) →
      (killChromium os s).value = some ("pkill error: " ++ e ++ ", output: " ++ output)) ∧
    ((killChromium os s).value = none ↔
      (err = none ∨ ∃ a b : String, output = a ++ "no process found" ++ b)) := by
  have hv : (killChromium os s).value = killChromiumResult output err := by
    show killChromiumResult (os.combinedOutput "pkill" ["-9", "chrome"] s).1.1
      (os.combinedOutput "pkill" ["-9", "chrome"] s).1.2 = _
    rw [hans]
  have he : (killChromium os s).events =
      [Event.combinedOutput "pkill" ["-9", "chrome"] output err] := by
    show [Event.combinedOutput "pkill" ["-9", "chrome"]
      (os.combinedOutput "pkill" ["-9", "chrome"] s).1.1
      (os.combinedOutput "pkill" ["-9", "chrome"] s).1.2] = _
    rw [hans]
  rw [hv]
  refine ⟨he, ?_, ?_, ?_, ?_⟩
  · rintro rfl
    rfl
  · intro hc
    rw [← stringsContains_iff] at hc
    cases err <;> simp [killChromiumResult, hc]
  · intro e he hc
    rw [← stringsContains_iff] at hc
    subst he
    simp [killChromiumResult, hc]
  · rw [← stringsContains_iff]
    cases err with
    | none => simp [killChromiumResult]
    | some e =>
      by_cases hc : stringsContains output "no process found" = true <;>
        simp [killChromiumResult, hc]

/-- The decision table on a host whose command exits with status 1 and reports
`chrome: no process found`. -/
theorem killChromium_outcome_witness :
    ((fixedHost (.ok "kiosk") ("chrome: no process found\n", some "exit status 1")
        (fun _ => none) none).combinedOutput "pkill" ["-9", "chrome"] ()).1 =
      ("chrome: no process found\n", some "exit status 1") ∧
    (∃ a b : String, "chrome: no process found\n" = a ++ "no process found" ++ b) ∧
    (killChromium (fixedHost (.ok "kiosk") ("chrome: no process found\n", some "exit status 1")
        (fun _ => none) none) ()).value = none :=
  have hc : ∃ a b : String, "chrome: no process found\n" = a ++ "no process found" ++ b :=
    ⟨"chrome: ", "\n", by decide⟩
  ⟨rfl, hc,
   (killChromium_outcome (fixedHost (.ok "kiosk")
      ("chrome: no process found\n", some "exit status 1") (fun _ => none) none) ()
      "chrome: no process found\n" (some "exit status 1") rfl).2.2.1 hc⟩

/-- C9, at the outcome by which `pkill` reports that no process matched (exit status 1,
nothing printed): the output does not contain `no process found`, so `killChromium`
returns the error `pkill error: exit status 1, output: ` instead of nil, and the handler
logs it as a failed termination before going on to purge, relaunch and answer 200. -/
theorem killChromium_silent_exit :
    stringsContains "" "no process found" = false ∧
    (killChromium (fixedHost (.ok "kiosk") ("", some "exit status 1") (fun _ => none) none)
      ()).value = some "pkill error: exit status 1, output: " ∧
    (killChromium (fixedHost (.ok "kiosk") ("", some "exit status 1") (fun _ => none) none)
      ()).events = [Event.combinedOutput "pkill" ["-9", "chrome"] "" (some "exit status 1")] ∧
    "Failed to kill Chromium: pkill error: exit status 1, output: " ∈
      (resetHandler (fixedHost (.ok "kiosk") ("", some "exit status 1") (fun _ => none) none)
        { url := "https://example.com", noSecurity := false } { query := [] } ()).logs ∧
    "Successfully killed Chromium processes (if any)" ∉
      (resetHandler (fixedHost (.ok "kiosk") ("", some "exit status 1") (fun _ => none) none)
        { url := "https://example.com", noSecurity := false } { query := [] } ()).logs ∧
    (resetHandler (fixedHost (.ok "kiosk") ("", some "exit status 1") (fun _ => none) none)
      { url := "https://example.com", noSecurity := false } { query := [] } ()).value =
      { status := 200, body := "Chromium reset and launched." } := by
  refine ⟨by decide, by decide, by decide, by decide, by decide, by decide⟩

/-! ## The names of the two commands -/

/-- C10, as stated, fails: the pattern handed to the termination utility is `chrome`, the
executable started is `chromium`, and `chrome` does not occur in `chromium`. -/
theorem kill_pattern_not_in_launch_name :
    (killChromium (fixedHost (.ok "kiosk") ("", none) (fun _ => none) none) ()).events.map
        Event.call = [Call.combinedOutput "pkill" ["-9", "chrome"]] ∧
    (launchChromium (fixedHost (.ok "kiosk") ("", none) (fun _ => none) none)
        "https://example.com" false ()).events.map Event.call =
      [Call.start "chromium" ["https://example.com"]] ∧
    stringsContains "chromium" "chrome" = false ∧
    ¬ ∃ a b : String, "chromium" = a ++ "chrome" ++ b := by
  refine ⟨by decide, by decide, by decide, ?_⟩
  rw [← stringsContains_iff]
  decide

/-- C10, amended: on every host `killChromium` hands the pattern `chrome` to `pkill -9`
and `launchChromium` starts the executable named `chromium`; the pattern does not occur
in that name, the names it occurs in being those of the form `a ++ "chrome" ++ b`, such
as `chrome` itself. -/
theorem kill_pattern_and_launch_name {σ : Type} (os : HostOS σ) (s : σ) (u : String)
    (b : Bool) :
    (killChromium os s).events.map Event.call =
      [Call.combinedOutput "pkill" ["-9", killPattern]] ∧
    killPattern = "chrome" ∧
    (launchChromium os u b s).events.map Event.call =
      [Call.start chromiumExecutable (launchArgs u b)] ∧
    chromiumExecutable = "chromium" ∧
    stringsContains chromiumExecutable killPattern = false ∧
    (∀ name : String, stringsContains name killPattern = true ↔
      ∃ x y : String, name = x ++ "chrome" ++ y) ∧
    stringsContains "chrome" killPattern = true := by
  refine ⟨rfl, rfl, rfl, rfl, by decide, ?_, by decide⟩
  intro name
  exact stringsContains_iff name killPattern

end ChromeReset
